import Mathlib

/-!
Shallow embedding of the request-validation and translation layer of the
google-calendar-todo MCP server (src/server.ts).  Pure translation
functions (date normalization, reminder / extended-property mapping,
request-body construction, response normalization, the registry's
validation wrapper, and the sequential search loop) are transcribed as
executable Lean definitions; the claims about them are settled below.
-/

namespace GCalTodo

/-- A minimal JSON value model: outbound payloads distinguish a key that is
absent from a key that is present with an explicit `null`. -/
inductive Json where
  | null : Json
  | str : String → Json
  | num : Int → Json
  | bool : Bool → Json
  | arr : List Json → Json
  | obj : List (String × Json) → Json
deriving Repr

/-- Key lookup in an object-shaped `Json` value (first match). -/
def Json.lookupKey : Json → String → Option Json
  | .obj fields, k => go fields k
  | _, _ => none
where
  go : List (String × Json) → String → Option Json
    | [], _ => none
    | (k, v) :: rest, key => if k = key then some v else go rest key

/-- Whether an object-shaped `Json` value has the given key. -/
def Json.hasKey (j : Json) (k : String) : Bool :=
  (j.lookupKey k).isSome

/-- Whether a `Json` value is the explicit `null`. -/
def Json.isNull : Json → Bool
  | .null => true
  | _ => false

/-! ### Date/time normalization (`toGoogleDate`, src/server.ts) -/

/-- Matches `DATE_ONLY_REGEX = /^\d{4}-\d{2}-\d{2}$/`: exactly four digits, a
hyphen, two digits, a hyphen, two digits. -/
def dateOnlyMatch (s : String) : Bool :=
  match s.data with
  | [y1, y2, y3, y4, h1, m1, m2, h2, d1, d2] =>
    y1.isDigit && y2.isDigit && y3.isDigit && y4.isDigit &&
    (h1 = '-') && m1.isDigit && m2.isDigit &&
    (h2 = '-') && d1.isDigit && d2.isDigit
  | _ => false

/-- The Google API date value: either `{date}` for all-day values or
`{dateTime}` optionally paired with `{timeZone}`. -/
structure GoogleDate where
  date : Option String
  dateTime : Option String
  timeZone : Option String
deriving Repr, DecidableEq

/-- Transcribes `toGoogleDate(value, timeZone?)` from src/server.ts. The
return is guarded by the JS truthiness test `timeZone ? … : …`, so an
absent time zone and a supplied empty-string time zone both leave the
`timeZone` key off. -/
def toGoogleDate (value : String) (timeZone : Option String) : GoogleDate :=
  if dateOnlyMatch value then
    { date := some value, dateTime := none, timeZone := none }
  else
    match timeZone with
    | some tz =>
      if tz.isEmpty then { date := none, dateTime := some value, timeZone := none }
      else { date := none, dateTime := some value, timeZone := some tz }
    | none => { date := none, dateTime := some value, timeZone := none }

/-! ### Validated input fragments (the zod schema library, src/server.ts) -/

/-- Embeds `z.enum(["email", "popup"])` for a reminder override's method. -/
inductive ReminderMethod where
  | email : ReminderMethod
  | popup : ReminderMethod
deriving Repr, DecidableEq

/-- Embeds `reminderOverrideSchema`: optional method, required non-negative
integer minutes. -/
structure ReminderOverride where
  method : Option ReminderMethod
  minutes : Nat
deriving Repr, DecidableEq

/-- Embeds `remindersSchema`: optional `useDefault`, optional list of overrides
(validation requires the list, when present, to be non-empty). -/
structure RemindersInput where
  useDefault : Option Bool
  overrides : Option (List ReminderOverride)
deriving Repr, DecidableEq

/-- An outbound reminder override: the method is always present. -/
structure MappedOverride where
  method : ReminderMethod
  minutes : Nat
deriving Repr, DecidableEq

/-- The outbound reminders value; a field is carried only when assigned. -/
structure MappedReminders where
  useDefault : Option Bool
  overrides : Option (List MappedOverride)
deriving Repr, DecidableEq

/-- Transcribes `mapReminders(reminders?)` from src/server.ts: default each override's
method to popup, keep `useDefault` only when supplied, keep `overrides`
only when non-empty, and return nothing at all when the mapped object
would have no keys. -/
def mapReminders (reminders : Option RemindersInput) : Option MappedReminders :=
  match reminders with
  | none => none
  | some r =>
    let overrides := r.overrides.map (fun os =>
      os.map (fun o => { method := o.method.getD .popup, minutes := o.minutes }))
    let mapped : MappedReminders := { useDefault := none, overrides := none }
    let mapped := match r.useDefault with
      | some b => { mapped with useDefault := some b }
      | none => mapped
    let mapped := match overrides with
      | some os => if os.length > 0 then { mapped with overrides := some os } else mapped
      | none => mapped
    if mapped.useDefault.isSome || mapped.overrides.isSome then some mapped else none

/-- Embeds `extendedPropertiesSchema`: two optional string-to-string maps
(records are embedded as association lists). -/
structure ExtendedPropertiesInput where
  «private» : Option (List (String × String))
  shared : Option (List (String × String))
deriving Repr, DecidableEq

/-- The outbound extended-properties value. -/
structure MappedExtendedProperties where
  «private» : Option (List (String × String))
  shared : Option (List (String × String))
deriving Repr, DecidableEq

/-- Transcribes `mapExtendedProperties(extendedProperties?)` from src/server.ts:
dropped entirely unless one of the two maps has at least one key; each
map kept only when itself non-empty. -/
def mapExtendedProperties (ep : Option ExtendedPropertiesInput) :
    Option MappedExtendedProperties :=
  match ep with
  | none => none
  | some e =>
    let hasPrivate := match e.«private» with
      | some m => m.length > 0
      | none => false
    let hasShared := match e.shared with
      | some m => m.length > 0
      | none => false
    if !hasPrivate && !hasShared then none
    else some
      { «private» := if hasPrivate then e.«private» else none,
        shared := if hasShared then e.shared else none }

/-- Embeds `attendeeSchema` / the outbound attendee shape (the request mapping
copies the same six fields). -/
structure Attendee where
  email : String
  optional : Option Bool
  displayName : Option String
  responseStatus : Option String
  comment : Option String
  additionalGuests : Option Nat
deriving Repr, DecidableEq

/-- Transcribes `mapAttendeesForRequest(attendees?)` from src/server.ts. -/
def mapAttendeesForRequest (attendees : Option (List Attendee)) :
    Option (List Attendee) :=
  attendees.map (fun as_ => as_.map (fun a =>
    { email := a.email, optional := a.optional, displayName := a.displayName,
      responseStatus := a.responseStatus, comment := a.comment,
      additionalGuests := a.additionalGuests }))

/-- Embeds an `attachmentsSchema` element. -/
structure Attachment where
  fileUrl : String
  title : Option String
  mimeType : Option String
  iconLink : Option String
  fileId : Option String
deriving Repr, DecidableEq

/-- Embeds `sourceSchema`. -/
structure SourceLink where
  title : String
  url : String
deriving Repr, DecidableEq

/-- Embeds `commonEventFieldsSchema`: the sixteen optional fields shared by the
create/update/instance-update event schemas. Conference data is validated
only as an object and carried as an embedded JSON value. -/
structure CommonEventFields where
  description : Option String
  location : Option String
  colorId : Option String
  recurrence : Option (List String)
  transparency : Option String
  visibility : Option String
  attendees : Option (List Attendee)
  reminders : Option RemindersInput
  conferenceData : Option Json
  extendedProperties : Option ExtendedPropertiesInput
  guestsCanInviteOthers : Option Bool
  guestsCanModify : Option Bool
  guestsCanSeeOtherGuests : Option Bool
  anyoneCanAddSelf : Option Bool
  attachments : Option (List Attachment)
  source : Option SourceLink
deriving Repr

/-- A `CommonEventFields` value with every field omitted. -/
def CommonEventFields.empty : CommonEventFields :=
  { description := none, location := none, colorId := none, recurrence := none,
    transparency := none, visibility := none, attendees := none, reminders := none,
    conferenceData := none, extendedProperties := none, guestsCanInviteOthers := none,
    guestsCanModify := none, guestsCanSeeOtherGuests := none, anyoneCanAddSelf := none,
    attachments := none, source := none }

/-! ### Outbound event request bodies (`calendar_v3.Schema$Event`) -/

/-- The outbound event request body. A `none` field is absent from the
serialized request (assigning `undefined` in the source leaves no value
on the wire), so every field is an `Option`. -/
structure EventBody where
  id : Option String
  summary : Option String
  start : Option GoogleDate
  «end» : Option GoogleDate
  description : Option String
  location : Option String
  colorId : Option String
  recurrence : Option (List String)
  transparency : Option String
  visibility : Option String
  attendees : Option (List Attendee)
  reminders : Option MappedReminders
  conferenceData : Option Json
  extendedProperties : Option MappedExtendedProperties
  guestsCanInviteOthers : Option Bool
  guestsCanModify : Option Bool
  guestsCanSeeOtherGuests : Option Bool
  anyoneCanAddSelf : Option Bool
  attachments : Option (List Attachment)
  source : Option SourceLink
deriving Repr

/-- The empty request body (`const requestBody = {}`). -/
def EventBody.empty : EventBody :=
  { id := none, summary := none, start := none, «end» := none, description := none,
    location := none, colorId := none, recurrence := none, transparency := none,
    visibility := none, attendees := none, reminders := none, conferenceData := none,
    extendedProperties := none, guestsCanInviteOthers := none, guestsCanModify := none,
    guestsCanSeeOtherGuests := none, anyoneCanAddSelf := none, attachments := none,
    source := none }

/-- Transcribes `applyCommonEventFields(target, input)` from src/server.ts: each of the
sixteen guarded assignments writes a distinct field of `target` when the
corresponding input field was supplied, so the sequence of statements is
embedded as one simultaneous record update. Assignments whose right-hand
side maps to nothing (`mapReminders` / `mapExtendedProperties` returning
`undefined`) leave no value on the wire. -/
def applyCommonEventFields (target : EventBody) (input : CommonEventFields) : EventBody :=
  { target with
    description := match input.description with
      | some d => some d
      | none => target.description,
    location := match input.location with
      | some l => some l
      | none => target.location,
    colorId := match input.colorId with
      | some c => some c
      | none => target.colorId,
    recurrence := match input.recurrence with
      | some r => some r
      | none => target.recurrence,
    transparency := match input.transparency with
      | some t => some t
      | none => target.transparency,
    visibility := match input.visibility with
      | some v => some v
      | none => target.visibility,
    attendees := match input.attendees with
      | some a => mapAttendeesForRequest (some a)
      | none => target.attendees,
    reminders := match input.reminders with
      | some r => mapReminders (some r)
      | none => target.reminders,
    conferenceData := match input.conferenceData with
      | some c => some c
      | none => target.conferenceData,
    extendedProperties := match input.extendedProperties with
      | some e => mapExtendedProperties (some e)
      | none => target.extendedProperties,
    guestsCanInviteOthers := match input.guestsCanInviteOthers with
      | some g => some g
      | none => target.guestsCanInviteOthers,
    guestsCanModify := match input.guestsCanModify with
      | some g => some g
      | none => target.guestsCanModify,
    guestsCanSeeOtherGuests := match input.guestsCanSeeOtherGuests with
      | some g => some g
      | none => target.guestsCanSeeOtherGuests,
    anyoneCanAddSelf := match input.anyoneCanAddSelf with
      | some a => some a
      | none => target.anyoneCanAddSelf,
    attachments := match input.attachments with
      | some a => some a
      | none => target.attachments,
    source := match input.source with
      | some s => some s
      | none => target.source }

/-! ### Event tool inputs and outbound calls -/

/-- Embeds `createEventInput`: required summary/start/end, defaulted calendarId,
optional timeZone/eventId/sendUpdates, merged with the common fields. -/
structure CreateEventInput where
  calendarId : String
  summary : String
  start : String
  «end» : String
  timeZone : Option String
  eventId : Option String
  sendUpdates : Option String
  common : CommonEventFields
deriving Repr

/-- The request body built by the create-event handler: summary/start/end
always set, description/location copied when supplied, the optional
`eventId` copied into `id` only when truthy (a non-empty string), then the
common fields applied. -/
def createEventBody (input : CreateEventInput) : EventBody :=
  let rb : EventBody :=
    { EventBody.empty with
      summary := some input.summary,
      start := some (toGoogleDate input.start input.timeZone),
      «end» := some (toGoogleDate input.«end» input.timeZone) }
  let rb := match input.common.description with
    | some d => { rb with description := some d }
    | none => rb
  let rb := match input.common.location with
    | some l => { rb with location := some l }
    | none => rb
  let rb := match input.eventId with
    | some e => if e.isEmpty then rb else { rb with id := some e }
    | none => rb
  applyCommonEventFields rb input.common

/-- The full outbound `events.insert` call made by the create-event
handler: `supportsAttachments` is sent only when a non-empty attachment
list is present, `conferenceDataVersion` only when conference data is. -/
structure InsertEventCall where
  calendarId : String
  requestBody : EventBody
  sendUpdates : Option String
  supportsAttachments : Option Bool
  conferenceDataVersion : Option Nat
deriving Repr

/-- The create-event handler's outbound call (src/server.ts). -/
def createEventCall (input : CreateEventInput) : InsertEventCall :=
  let hasAttachments := match input.common.attachments with
    | some l => !l.isEmpty
    | none => false
  { calendarId := input.calendarId,
    requestBody := createEventBody input,
    sendUpdates := input.sendUpdates,
    supportsAttachments := if hasAttachments then some true else none,
    conferenceDataVersion := if input.common.conferenceData.isSome then some 1 else none }

/-- Embeds `updateEventInput`: required eventId, everything mutable optional. -/
structure UpdateEventInput where
  calendarId : String
  eventId : String
  summary : Option String
  start : Option String
  «end» : Option String
  timeZone : Option String
  sendUpdates : Option String
  common : CommonEventFields
deriving Repr

/-- The request body built by the update-event handler: starts from `{}`
and assigns summary/start/end only when supplied, then applies the common
fields. -/
def updateEventBody (input : UpdateEventInput) : EventBody :=
  applyCommonEventFields
    { EventBody.empty with
      summary := match input.summary with
        | some s => some s
        | none => none,
      start := match input.start with
        | some s => some (toGoogleDate s input.timeZone)
        | none => none,
      «end» := match input.«end» with
        | some e => some (toGoogleDate e input.timeZone)
        | none => none }
    input.common

/-- Embeds `updateEventInstanceInput`: identical to the event update but keyed by
`instanceId`. -/
structure UpdateEventInstanceInput where
  calendarId : String
  instanceId : String
  summary : Option String
  start : Option String
  «end» : Option String
  timeZone : Option String
  sendUpdates : Option String
  common : CommonEventFields
deriving Repr

/-- The request body built by the update-event-instance handler; the
construction in src/server.ts duplicates the update-event one. -/
def updateEventInstanceBody (input : UpdateEventInstanceInput) : EventBody :=
  applyCommonEventFields
    { EventBody.empty with
      summary := match input.summary with
        | some s => some s
        | none => none,
      start := match input.start with
        | some s => some (toGoogleDate s input.timeZone)
        | none => none,
      «end» := match input.«end» with
        | some e => some (toGoogleDate e input.timeZone)
        | none => none }
    input.common

/-! ### The operation registry's validation wrapper (`registerTool`) -/

/-- The two outward error kinds (`ErrorCode.InvalidParams`,
`ErrorCode.InternalError`). -/
inductive ErrorCode where
  | invalidParams : ErrorCode
  | internalError : ErrorCode
deriving Repr, DecidableEq

/-- A structured protocol error (`McpError`). -/
structure McpError where
  code : ErrorCode
  message : String
deriving Repr, DecidableEq

/-- The shapes a handler can throw, as distinguished by the catch clause
in `registerTool`: an already-structured protocol error, a validation
error carrying its issue messages, an error exposing a message, or
anything else. -/
inductive Thrown where
  | mcp : McpError → Thrown
  | zod : List String → Thrown
  | err : String → Thrown
  | unknown : Thrown
deriving Repr, DecidableEq

/-- The catch clause of `registerTool`: a protocol error is re-raised
unchanged, a validation error becomes `InvalidParams` with every issue
message joined by "; ", an error with a message becomes `InternalError`
with that message, anything else a generic `InternalError`. -/
def handleThrown : Thrown → McpError
  | .mcp e => e
  | .zod issues => { code := .invalidParams, message := String.intercalate "; " issues }
  | .err m => { code := .internalError, message := m }
  | .unknown => { code := .internalError, message := "Unexpected error executing tool" }

/-- The wrapper installed by `registerTool`: parse `args ?? {}` with the
operation's schema (a failed parse raises a validation error, caught by
the same catch clause), then run the executor on the validated input and
normalize anything it throws. -/
def invokeTool {Raw Input Result : Type}
    (parse : Raw → Except (List String) Input)
    (executor : Input → Except Thrown Result)
    (emptyRaw : Raw) (args : Option Raw) : Except McpError Result :=
  match parse (args.getD emptyRaw) with
  | .error issues => .error (handleThrown (.zod issues))
  | .ok input =>
    match executor input with
    | .ok result => .ok result
    | .error thrown => .error (handleThrown thrown)

/-! ### `list-events` input validation (`listEventsInput`) -/

/-- Matches `propertyFilterRegex = /^[^=]+=[^=]+$/`: exactly one `=`, neither at
the start nor at the end. -/
def propertyFilterMatch (s : String) : Bool :=
  match s.splitOn "=" with
  | [k, v] => !k.isEmpty && !v.isEmpty
  | _ => false

/-- Raw (pre-validation) arguments for `list-events`; decoding from JSON
to these typed options is assumed, validation of the zod refinements
(integer range and property-filter shape) is embedded below. -/
structure ListEventsRaw where
  calendarId : Option String
  timeMin : Option String
  timeMax : Option String
  maxResults : Option Int
  query : Option String
  singleEvents : Option Bool
  orderBy : Option String
  showDeleted : Option Bool
  timeZone : Option String
  pageToken : Option String
  syncToken : Option String
  privateExtendedProperty : Option (List String)
  sharedExtendedProperty : Option (List String)
deriving Repr

/-- The `list-events` raw record with every argument absent. -/
def ListEventsRaw.empty : ListEventsRaw :=
  { calendarId := none, timeMin := none, timeMax := none, maxResults := none,
    query := none, singleEvents := none, orderBy := none, showDeleted := none,
    timeZone := none, pageToken := none, syncToken := none,
    privateExtendedProperty := none, sharedExtendedProperty := none }

/-- Validated `list-events` input: `calendarId` has received its default. -/
structure ListEventsInput where
  calendarId : String
  timeMin : Option String
  timeMax : Option String
  maxResults : Option Int
  query : Option String
  singleEvents : Option Bool
  orderBy : Option String
  showDeleted : Option Bool
  timeZone : Option String
  pageToken : Option String
  syncToken : Option String
  privateExtendedProperty : Option (List String)
  sharedExtendedProperty : Option (List String)
deriving Repr

/-- Issue messages produced by zod for one `maxResults` value:
`z.number().int().min(1).max(2500)`. -/
def maxResultsIssues (n : Int) : List String :=
  (if n < 1 then ["Number must be greater than or equal to 1"] else []) ++
  (if n > 2500 then ["Number must be less than or equal to 2500"] else [])

/-- Issue messages for one list of property-filter strings:
each element must match `^[^=]+=[^=]+$`. -/
def propertyFilterIssues (filters : List String) : List String :=
  filters.filterMap (fun s =>
    if propertyFilterMatch s then none else some "Must be in key=value format")

/-- Embeds `listEventsInput.parse`: collect every field violation; on success
produce the defaulted, typed input. -/
def parseListEvents (raw : ListEventsRaw) : Except (List String) ListEventsInput :=
  let issues :=
    (match raw.maxResults with
      | some n => maxResultsIssues n
      | none => []) ++
    (match raw.privateExtendedProperty with
      | some fs => propertyFilterIssues fs
      | none => []) ++
    (match raw.sharedExtendedProperty with
      | some fs => propertyFilterIssues fs
      | none => [])
  if issues.isEmpty then
    .ok
      { calendarId := raw.calendarId.getD "primary", timeMin := raw.timeMin,
        timeMax := raw.timeMax, maxResults := raw.maxResults, query := raw.query,
        singleEvents := raw.singleEvents, orderBy := raw.orderBy,
        showDeleted := raw.showDeleted, timeZone := raw.timeZone,
        pageToken := raw.pageToken, syncToken := raw.syncToken,
        privateExtendedProperty := raw.privateExtendedProperty,
        sharedExtendedProperty := raw.sharedExtendedProperty }
  else .error issues

/-! ### Response normalization (`mapEvent` and raw entity echo) -/

/-- A raw backend event entity (`calendar_v3.Schema$Event`) restricted to
the fields the normalizer reads; a `none` field is a key the backend did
not send, so it is absent from the parsed object. Field values are kept
as embedded JSON. -/
structure RawEvent where
  id : Option Json
  status : Option Json
  summary : Option Json
  description : Option Json
  location : Option Json
  start : Option Json
  «end» : Option Json
  recurrence : Option Json
  recurringEventId : Option Json
  originalStartTime : Option Json
  creator : Option Json
  organizer : Option Json
  attendees : Option Json
  htmlLink : Option Json
  hangoutLink : Option Json
  conferenceData : Option Json
  attachments : Option Json
  transparency : Option Json
  visibility : Option Json
  colorId : Option Json
  reminders : Option Json
  updated : Option Json
  created : Option Json
deriving Repr

/-- One key-value pair when the field is present, nothing otherwise: the
serialization of a raw parsed object omits absent keys. -/
def optKey (k : String) (v : Option Json) : List (String × Json) :=
  match v with
  | some j => [(k, j)]
  | none => []

/-- The JSON object for a raw backend event echoed as-is (as by
`JSON.stringify(created.data)`): keys present only for fields the backend
sent. -/
def rawEventJson (e : RawEvent) : Json :=
  Json.obj (List.flatten
    [optKey "id" e.id, optKey "status" e.status, optKey "summary" e.summary,
     optKey "description" e.description, optKey "location" e.location,
     optKey "start" e.start, optKey "end" e.«end»,
     optKey "recurrence" e.recurrence, optKey "recurringEventId" e.recurringEventId,
     optKey "originalStartTime" e.originalStartTime, optKey "creator" e.creator,
     optKey "organizer" e.organizer, optKey "attendees" e.attendees,
     optKey "htmlLink" e.htmlLink, optKey "hangoutLink" e.hangoutLink,
     optKey "conferenceData" e.conferenceData, optKey "attachments" e.attachments,
     optKey "transparency" e.transparency, optKey "visibility" e.visibility,
     optKey "colorId" e.colorId, optKey "reminders" e.reminders,
     optKey "updated" e.updated, optKey "created" e.created])

/-- One key of the normalizer's fixed key set: the raw field value, or
the explicit `null` substituted by `?? null`. -/
def keyOrNull (k : String) (v : Option Json) : String × Json :=
  (k, v.getD Json.null)

/-- Transcribes `mapEvent(event)` from src/server.ts: the normalizer emits a fixed
set of keys, substituting explicit `null` for every absent field. -/
def mapEvent (e : RawEvent) : Json :=
  Json.obj
    [keyOrNull "id" e.id, keyOrNull "status" e.status,
     keyOrNull "summary" e.summary, keyOrNull "description" e.description,
     keyOrNull "location" e.location, keyOrNull "start" e.start,
     keyOrNull "end" e.«end», keyOrNull "recurrence" e.recurrence,
     keyOrNull "recurringEventId" e.recurringEventId,
     keyOrNull "originalStartTime" e.originalStartTime,
     keyOrNull "creator" e.creator, keyOrNull "organizer" e.organizer,
     keyOrNull "attendees" e.attendees, keyOrNull "htmlLink" e.htmlLink,
     keyOrNull "hangoutLink" e.hangoutLink,
     keyOrNull "conferenceData" e.conferenceData,
     keyOrNull "attachments" e.attachments,
     keyOrNull "transparency" e.transparency,
     keyOrNull "visibility" e.visibility, keyOrNull "colorId" e.colorId,
     keyOrNull "reminders" e.reminders, keyOrNull "updated" e.updated,
     keyOrNull "created" e.created]

/-- The create-event handler's response payload: `{ event: created.data }`
— the backend's raw entity, not passed through `mapEvent`. -/
def createEventResponseJson (created : RawEvent) : Json :=
  .obj [("event", rawEventJson created)]

/-! ### `search-events` (sequential per-calendar backend calls) -/

/-- A raw `events.list` backend response. -/
structure EventsListResponse where
  items : Option (List RawEvent)
  nextPageToken : Option String
  nextSyncToken : Option String
deriving Repr

/-- One per-calendar entry of the `search-events` result list. -/
structure SearchEntry where
  calendarId : String
  events : List Json
  nextPageToken : Option String
deriving Repr

/-- The entry pushed for one calendar from its backend response
(`(response.data.items ?? []).map(mapEvent)` plus the page token). -/
def mkSearchEntry (calendarId : String) (resp : EventsListResponse) : SearchEntry :=
  { calendarId := calendarId,
    events := (resp.items.getD []).map mapEvent,
    nextPageToken := resp.nextPageToken }

/-- The body of the `search-events` loop: one awaited backend call per
calendar identifier, in input order; a throw aborts the loop. The first
component records the calls actually issued, the second the accumulated
entries or the thrown error. -/
def searchEventsRun (backend : String → Except String EventsListResponse) :
    List String → List String × Except String (List SearchEntry)
  | [] => ([], .ok [])
  | id :: rest =>
    match backend id with
    | .error e => ([id], .error e)
    | .ok resp =>
      let r := searchEventsRun backend rest
      (id :: r.1,
        match r.2 with
        | .ok entries => .ok (mkSearchEntry id resp :: entries)
        | .error e => .error e)

/-- The `search-events` result payload. -/
structure SearchEventsPayload where
  query : String
  totalEvents : Nat
  calendars : List SearchEntry
deriving Repr

/-- Validated `search-events` input restricted to the fields the loop
reads (the remaining filters are forwarded to the backend untouched). -/
structure SearchEventsInput where
  calendarIds : List String
  query : String
deriving Repr

/-- The `search-events` executor: run the sequential loop; a backend
throw propagates out of the handler as an error exposing a message, and
the accumulated partial results are discarded. -/
def searchEventsExecutor (backend : String → Except String EventsListResponse)
    (input : SearchEventsInput) : Except Thrown SearchEventsPayload :=
  match (searchEventsRun backend input.calendarIds).2 with
  | .error e => .error (.err e)
  | .ok entries =>
    .ok
      { query := input.query,
        totalEvents := (entries.map (fun entry => entry.events.length)).sum,
        calendars := entries }

/-- The per-calendar entries under the assumption that every backend call
succeeds (used to state the success case of the loop). -/
def searchEntriesOf (backend : String → Except String EventsListResponse)
    (ids : List String) : List SearchEntry :=
  ids.filterMap (fun id =>
    match backend id with
    | .ok resp => some (mkSearchEntry id resp)
    | .error _ => none)

/-! ### Task tools (src/server.ts, `registerTaskTools`) -/

/-- Embeds `z.enum(["needsAction", "completed"])`. -/
inductive TaskStatus where
  | needsAction : TaskStatus
  | completed : TaskStatus
deriving Repr, DecidableEq

/-- The outbound task body (`tasks_v1.Schema$Task` restricted to the
fields these handlers write); a `none` field is absent from the wire. -/
structure TaskBody where
  title : Option String
  notes : Option String
  due : Option String
  status : Option TaskStatus
  completed : Option String
deriving Repr, DecidableEq

/-- The empty task body. -/
def TaskBody.empty : TaskBody :=
  { title := none, notes := none, due := none, status := none, completed := none }

/-- Embeds `updateTaskInput`: required taskId, defaulted tasklistId, optional
mutable fields. The schema has no `completed` field. -/
structure UpdateTaskInput where
  tasklistId : String
  taskId : String
  title : Option String
  notes : Option String
  due : Option String
  status : Option TaskStatus
deriving Repr, DecidableEq

/-- The patch body built by the update-task handler: each mutable field
assigned only when supplied; when the supplied status is `completed`,
`completed` is stamped with the current ISO timestamp (`now`). -/
def updateTaskBody (now : String) (input : UpdateTaskInput) : TaskBody :=
  { title := match input.title with
      | some t => some t
      | none => none,
    notes := match input.notes with
      | some n => some n
      | none => none,
    due := match input.due with
      | some d => some d
      | none => none,
    status := match input.status with
      | some s => some s
      | none => none,
    completed := match input.status with
      | some s => if s = TaskStatus.completed then some now else none
      | none => none }

/-- The patch body sent by the complete-task handler:
`{ status: "completed", completed: completedAt }` with `completedAt`
the ISO timestamp taken at the moment of the call. -/
def completeTaskBody (now : String) : TaskBody :=
  { title := none, notes := none, due := none,
    status := some TaskStatus.completed, completed := some now }

/-- A raw `tasklists.list` backend response item
(`tasks_v1.Schema$TaskList` restricted to the fields read). -/
structure TaskListItem where
  id : Option String
  title : Option String
  updated : Option String
deriving Repr, DecidableEq

/-- A raw `tasklists.list` backend response. -/
structure TaskListsResponse where
  items : Option (List TaskListItem)
  nextPageToken : Option String
deriving Repr, DecidableEq

/-- The parameters of the backend call issued by the list-tasklists
handler; the tool's input schema is the empty object, so the call does
not depend on the (unit) validated input. -/
structure TaskListsCallParams where
  maxResults : Nat
deriving Repr, DecidableEq

/-- Transcribes `tasks.tasklists.list({ maxResults: 100 })`: the page size is the
literal 100 for every invocation. -/
def listTasklistsParams (_input : Unit) : TaskListsCallParams :=
  { maxResults := 100 }

/-- The list-tasklists response payload: the mapped items plus
`nextPageToken ?? null` (key always present, explicit null when the
backend sent no token). -/
structure TaskListsPayload where
  tasklists : List TaskListItem
  nextPageToken : Json
deriving Repr

/-- The list-tasklists handler's payload construction (src/server.ts):
each item keeps id/title/updated as-is, and the page token is
null-defaulted. -/
def listTasklistsPayload (resp : TaskListsResponse) : TaskListsPayload :=
  { tasklists := (resp.items.getD []).map (fun item =>
      { id := item.id, title := item.title, updated := item.updated }),
    nextPageToken := match resp.nextPageToken with
      | some t => Json.str t
      | none => Json.null }

/-! ## Claims -/

/-- C1 (amended): a caller-supplied date/time string passed as event
start or end (create-event, update-event, update-event-instance) becomes
`{date}` when it matches exactly `YYYY-MM-DD` and `{dateTime}` otherwise,
with a `timeZone` key if and only if a non-empty time zone was supplied
(the source's truthy test drops a supplied empty string); no outbound
value has both `date` and `dateTime`, and all three handlers route
start/end through this one normalization. -/
theorem toGoogleDate_dateOnly_split (value : String) (timeZone : Option String) :
    (dateOnlyMatch value = true →
      toGoogleDate value timeZone =
        { date := some value, dateTime := none, timeZone := none }) ∧
    (dateOnlyMatch value = false → ∀ tz, timeZone = some tz → tz ≠ "" →
      toGoogleDate value timeZone =
        { date := none, dateTime := some value, timeZone := some tz }) ∧
    (dateOnlyMatch value = false → (timeZone = none ∨ timeZone = some "") →
      toGoogleDate value timeZone =
        { date := none, dateTime := some value, timeZone := none }) ∧
    ¬((toGoogleDate value timeZone).date.isSome = true ∧
      (toGoogleDate value timeZone).dateTime.isSome = true) ∧
    (∀ i : CreateEventInput,
      (createEventBody i).start = some (toGoogleDate i.start i.timeZone) ∧
      (createEventBody i).«end» = some (toGoogleDate i.«end» i.timeZone)) ∧
    (∀ i : UpdateEventInput,
      (updateEventBody i).start = i.start.map (fun s => toGoogleDate s i.timeZone) ∧
      (updateEventBody i).«end» = i.«end».map (fun e => toGoogleDate e i.timeZone)) ∧
    (∀ i : UpdateEventInstanceInput,
      (updateEventInstanceBody i).start = i.start.map (fun s => toGoogleDate s i.timeZone) ∧
      (updateEventInstanceBody i).«end» = i.«end».map (fun e => toGoogleDate e i.timeZone)) := by
  refine ⟨fun h => ?_, fun h tz htz hne => ?_, fun h hz => ?_, ?_,
    fun i => ⟨?_, ?_⟩, fun i => ⟨?_, ?_⟩, fun i => ⟨?_, ?_⟩⟩
  · simp [toGoogleDate, h]
  · subst htz
    have hb : tz.isEmpty = false := by
      rw [Bool.eq_false_iff]
      simp only [ne_eq, String.isEmpty_iff]
      exact hne
    simp [toGoogleDate, h, hb]
  · rcases hz with hz | hz <;> subst hz <;> simp [toGoogleDate, h, String.isEmpty_iff]
  · unfold toGoogleDate
    split
    · simp
    · rcases timeZone with _ | tz
      · simp
      · rcases htz : tz.isEmpty <;> simp [htz]
  · unfold createEventBody
    cases i.common.description <;> cases i.common.location <;> cases i.eventId <;>
      simp [applyCommonEventFields] <;> split <;> rfl
  · unfold createEventBody
    cases i.common.description <;> cases i.common.location <;> cases i.eventId <;>
      simp [applyCommonEventFields] <;> split <;> rfl
  · cases h : i.start <;> simp [updateEventBody, applyCommonEventFields, h]
  · cases h : i.«end» <;> simp [updateEventBody, applyCommonEventFields, h]
  · cases h : i.start <;> simp [updateEventInstanceBody, applyCommonEventFields, h]
  · cases h : i.«end» <;> simp [updateEventInstanceBody, applyCommonEventFields, h]

/-- Witness for C1 (amended) at concrete inputs: `"2024-01-10"` is
treated as an all-day date (a supplied time zone is dropped), a timestamp
keeps a supplied non-empty time zone, and a timestamp with no time zone
carries none. -/
theorem toGoogleDate_dateOnly_split_witness :
    toGoogleDate "2024-01-10" (some "America/Los_Angeles") =
      { date := some "2024-01-10", dateTime := none, timeZone := none } ∧
    toGoogleDate "2024-01-10T09:00:00-08:00" (some "America/Los_Angeles") =
      { date := none, dateTime := some "2024-01-10T09:00:00-08:00",
        timeZone := some "America/Los_Angeles" } ∧
    toGoogleDate "2024-01-10T09:00:00-08:00" none =
      { date := none, dateTime := some "2024-01-10T09:00:00-08:00",
        timeZone := none } :=
  ⟨(toGoogleDate_dateOnly_split "2024-01-10" (some "America/Los_Angeles")).1 (by decide),
   (toGoogleDate_dateOnly_split "2024-01-10T09:00:00-08:00"
      (some "America/Los_Angeles")).2.1 (by decide) "America/Los_Angeles" rfl (by decide),
   (toGoogleDate_dateOnly_split "2024-01-10T09:00:00-08:00" none).2.2.1
      (by decide) (Or.inl rfl)⟩

/-- Counterexample to C1 as stated ("a timeZone key added if and only if
a time zone was supplied"): an empty-string time zone passes validation
(a plain optional string) yet the source's truthy test drops it, so the
outbound value for this supplied time zone carries no timeZone key. -/
theorem toGoogleDate_timeZone_iff_counterexample :
    (some "" : Option String).isSome = true ∧
    (toGoogleDate "2024-01-10T09:00:00-08:00" (some "")).timeZone = none ∧
    (toGoogleDate "2024-01-10T09:00:00-08:00" (some "")).dateTime =
      some "2024-01-10T09:00:00-08:00" :=
  ⟨rfl, rfl, rfl⟩

/-- C6: on the create/update event paths, each reminder override lacking
an explicit method is mapped with method popup, and a Reminders input
with no `useDefault` and absent-or-empty overrides contributes no
reminders value to the outbound request at all. -/
theorem mapReminders_popup_default_and_omission :
    (∀ (r : RemindersInput) (os : List ReminderOverride),
      r.overrides = some os → os ≠ [] →
      ∃ m, mapReminders (some r) = some m ∧
        m.overrides = some (os.map (fun o =>
          { method := o.method.getD ReminderMethod.popup, minutes := o.minutes }))) ∧
    (∀ useDefault overrides, useDefault = none → (overrides = none ∨ overrides = some []) →
      mapReminders (some { useDefault := useDefault, overrides := overrides }) = none) ∧
    mapReminders none = none := by
  refine ⟨fun r os hos hne => ?_, fun u o hu ho => ?_, rfl⟩
  · obtain ⟨ud, ov⟩ := r
    simp only at hos
    subst hos
    cases ud <;>
      simp [mapReminders, List.length_pos, hne]
  · subst hu
    rcases ho with h | h <;> subst h <;> simp [mapReminders]

/-- A one-override reminders input whose override has no method. -/
def sampleReminders : RemindersInput :=
  { useDefault := some true, overrides := some [{ method := none, minutes := 10 }] }

/-- Witness for C6: a single override without a method is sent with
method popup, and the contentless reminders inputs are dropped. -/
theorem mapReminders_popup_default_and_omission_witness :
    (∃ m, mapReminders (some sampleReminders) = some m ∧
      m.overrides = some [{ method := ReminderMethod.popup, minutes := 10 }]) ∧
    mapReminders (some { useDefault := none, overrides := none }) = none ∧
    mapReminders (some { useDefault := none, overrides := some [] }) = none :=
  ⟨mapReminders_popup_default_and_omission.1 sampleReminders
      [{ method := none, minutes := 10 }] rfl (by decide),
   mapReminders_popup_default_and_omission.2.1 none none rfl (Or.inl rfl),
   mapReminders_popup_default_and_omission.2.1 none (some []) rfl (Or.inr rfl)⟩

/-- Whether an optional string-to-string mapping has at least one key. -/
def hasEntries (m : Option (List (String × String))) : Bool :=
  match m with
  | some l => l.length > 0
  | none => false

/-- A mapping with at least one key is present. -/
lemma isSome_of_hasEntries {m : Option (List (String × String))}
    (h : hasEntries m = true) : m.isSome = true := by
  cases m <;> simp [hasEntries] at h ⊢

/-- Rewrites `mapExtendedProperties` on a supplied value, re-expressed through
`hasEntries` (definitionally equal to the source transcription). -/
lemma mapExtendedProperties_eq (e : ExtendedPropertiesInput) :
    mapExtendedProperties (some e) =
      if !(hasEntries e.«private») && !(hasEntries e.shared) then none
      else some
        { «private» := if hasEntries e.«private» then e.«private» else none,
          shared := if hasEntries e.shared then e.shared else none } := rfl

/-- C7: the outbound extended-properties value is omitted entirely unless
at least one of the private/shared mappings has at least one key; when it
is included, each of private and shared is included if and only if that
mapping itself is non-empty (and is then passed through unchanged). -/
theorem mapExtendedProperties_omission :
    mapExtendedProperties none = none ∧
    (∀ e : ExtendedPropertiesInput,
      (mapExtendedProperties (some e)).isSome = true ↔
        (hasEntries e.«private» || hasEntries e.shared) = true) ∧
    (∀ (e : ExtendedPropertiesInput) (m : MappedExtendedProperties),
      mapExtendedProperties (some e) = some m →
      (m.«private».isSome = true ↔ hasEntries e.«private» = true) ∧
      (m.shared.isSome = true ↔ hasEntries e.shared = true) ∧
      (hasEntries e.«private» = true → m.«private» = e.«private») ∧
      (hasEntries e.shared = true → m.shared = e.shared)) := by
  refine ⟨rfl, fun e => ?_, fun e m hm => ?_⟩
  · rw [mapExtendedProperties_eq]
    cases hp : hasEntries e.«private» <;> cases hs : hasEntries e.shared <;> simp
  · rw [mapExtendedProperties_eq] at hm
    cases hp : hasEntries e.«private» <;> cases hs : hasEntries e.shared <;>
        rw [hp, hs] at hm <;> simp at hm <;> subst hm <;> simp [hp, hs]
    · exact isSome_of_hasEntries hs
    · exact isSome_of_hasEntries hp
    · exact ⟨isSome_of_hasEntries hp, isSome_of_hasEntries hs⟩

/-- A sample extended-properties input: one private key, empty shared. -/
def sampleExtendedProperties : ExtendedPropertiesInput :=
  { «private» := some [("k", "v")], shared := some [] }

/-- Witness for C7: on the sample input the private mapping is passed
through unchanged while the empty shared mapping is omitted, and the
input with no keys at all is dropped entirely. -/
theorem mapExtendedProperties_omission_witness :
    (∃ m, mapExtendedProperties (some sampleExtendedProperties) = some m ∧
      m.«private» = sampleExtendedProperties.«private» ∧ m.shared.isSome = false) ∧
    mapExtendedProperties (some { «private» := some [], shared := none }) = none := by
  constructor
  · refine ⟨{ «private» := some [("k", "v")], shared := none }, rfl, ?_, ?_⟩
    · exact (mapExtendedProperties_omission.2.2 sampleExtendedProperties
        { «private» := some [("k", "v")], shared := none } rfl).2.2.1 (by decide)
    · have h := (mapExtendedProperties_omission.2.2 sampleExtendedProperties
        { «private» := some [("k", "v")], shared := none } rfl).2.1
      simp [hasEntries, sampleExtendedProperties] at h
      simp [h]
  · have h := (mapExtendedProperties_omission.2.1
      { «private» := some [], shared := none })
    simp [hasEntries] at h
    exact Option.not_isSome_iff_eq_none.mp (by simp [h])

/-- C8: the complete-task patch body is exactly
`{status: "completed", completed: <now>}`; update-task stamps `completed`
with the current timestamp exactly when the supplied status is
`completed`; on both paths the `completed` value can only be the clock
reading at the call (`UpdateTaskInput` has no completed field, so no
caller-supplied timestamp can reach it). -/
theorem taskCompletion_stamped :
    (∀ now : String, completeTaskBody now =
      { title := none, notes := none, due := none,
        status := some TaskStatus.completed, completed := some now }) ∧
    (∀ (now : String) (input : UpdateTaskInput),
      (updateTaskBody now input).completed =
        if input.status = some TaskStatus.completed then some now else none) ∧
    (∀ (now : String) (input : UpdateTaskInput),
      (updateTaskBody now input).completed = none ∨
      (updateTaskBody now input).completed = some now) := by
  refine ⟨fun now => rfl, fun now input => ?_, fun now input => ?_⟩
  · rcases h : input.status with _ | s
    · simp [updateTaskBody, h]
    · rcases s <;> simp [updateTaskBody, h]
  · rcases h : input.status with _ | s
    · exact Or.inl (by simp [updateTaskBody, h])
    · rcases s
      · exact Or.inl (by simp [updateTaskBody, h])
      · exact Or.inr (by simp [updateTaskBody, h])

/-- An update-task input supplying only status completed. -/
def sampleUpdateTask : UpdateTaskInput :=
  { tasklistId := "@default", taskId := "t1", title := none, notes := none,
    due := none, status := some TaskStatus.completed }

/-- Witness for C8 at a concrete input: an update-task call supplying
status completed gets `completed` stamped with the current timestamp. -/
theorem taskCompletion_stamped_witness :
    completeTaskBody "2024-01-10T17:00:00.000Z" =
      { title := none, notes := none, due := none,
        status := some TaskStatus.completed,
        completed := some "2024-01-10T17:00:00.000Z" } ∧
    (updateTaskBody "2024-01-10T17:00:00.000Z" sampleUpdateTask).completed =
      some "2024-01-10T17:00:00.000Z" := by
  constructor
  · exact taskCompletion_stamped.1 "2024-01-10T17:00:00.000Z"
  · rw [taskCompletion_stamped.2.1 "2024-01-10T17:00:00.000Z" sampleUpdateTask]
    rfl

/-- C9: the create-event request body's `id` is the caller-supplied
`eventId` exactly when that string is supplied and non-empty (the truthy
check); a supplied empty string (which the input schema accepts) and an
absent `eventId` are both silently dropped. -/
theorem createEvent_eventId_truthy (input : CreateEventInput) :
    (∀ s, input.eventId = some s → s ≠ "" → (createEventBody input).id = some s) ∧
    (input.eventId = some "" → (createEventBody input).id = none) ∧
    (input.eventId = none → (createEventBody input).id = none) := by
  have hid : (createEventBody input).id =
      match input.eventId with
      | some e => if e.isEmpty then none else some e
      | none => none := by
    unfold createEventBody
    cases input.common.description <;> cases input.common.location <;>
      cases input.eventId <;> simp [applyCommonEventFields] <;>
      first
        | (split <;> rfl)
        | rfl
  refine ⟨fun s hs hne => ?_, fun hs => ?_, fun hs => ?_⟩
  · rw [hid, hs]
    simp only [String.isEmpty_iff]
    simp [hne]
  · rw [hid, hs]
    rfl
  · rw [hid, hs]

/-- A create-event input with the given optional eventId and no other
optional fields. -/
def sampleCreateInput (eid : Option String) : CreateEventInput :=
  { calendarId := "primary", summary := "s", start := "2024-01-10",
    «end» := "2024-01-11", timeZone := none, eventId := eid,
    sendUpdates := none, common := CommonEventFields.empty }

/-- Witness for C9: a non-empty supplied eventId is copied into the
request body, the empty string is dropped. -/
theorem createEvent_eventId_truthy_witness :
    (createEventBody (sampleCreateInput (some "custom-id"))).id = some "custom-id" ∧
    (createEventBody (sampleCreateInput (some ""))).id = none :=
  ⟨(createEvent_eventId_truthy _).1 "custom-id" rfl (by decide),
   (createEvent_eventId_truthy _).2.1 rfl⟩

/-- An update-event invocation supplying only the required identifiers. -/
def emptyUpdateEventInput (calendarId eventId : String) : UpdateEventInput :=
  { calendarId := calendarId, eventId := eventId, summary := none, start := none,
    «end» := none, timeZone := none, sendUpdates := none,
    common := CommonEventFields.empty }

/-- An update-event-instance invocation supplying only the identifiers. -/
def emptyUpdateInstanceInput (calendarId instanceId : String) : UpdateEventInstanceInput :=
  { calendarId := calendarId, instanceId := instanceId, summary := none,
    start := none, «end» := none, timeZone := none, sendUpdates := none,
    common := CommonEventFields.empty }

/-- An update-task invocation supplying only the required identifiers. -/
def emptyUpdateTaskInput (tasklistId taskId : String) : UpdateTaskInput :=
  { tasklistId := tasklistId, taskId := taskId, title := none, notes := none,
    due := none, status := none }

/-- C2 (amended): for the three update operations the outbound request
body contains a mutable field only if the caller supplied it (for
update-task, `completed` is additionally stamped when the supplied status
is completed), and an invocation carrying only the required identifiers
produces a request body with zero mutable fields set. The converse —
every supplied field appears — fails for supplied-but-contentless
reminders and extended-properties values (see the counterexample). -/
theorem updateBodies_explicit_only :
    (∀ i : UpdateEventInput,
      ((updateEventBody i).summary.isSome = true → i.summary.isSome = true) ∧
      ((updateEventBody i).start.isSome = true → i.start.isSome = true) ∧
      ((updateEventBody i).«end».isSome = true → i.«end».isSome = true) ∧
      ((updateEventBody i).description.isSome = true → i.common.description.isSome = true) ∧
      ((updateEventBody i).location.isSome = true → i.common.location.isSome = true) ∧
      ((updateEventBody i).colorId.isSome = true → i.common.colorId.isSome = true) ∧
      ((updateEventBody i).recurrence.isSome = true → i.common.recurrence.isSome = true) ∧
      ((updateEventBody i).transparency.isSome = true → i.common.transparency.isSome = true) ∧
      ((updateEventBody i).visibility.isSome = true → i.common.visibility.isSome = true) ∧
      ((updateEventBody i).attendees.isSome = true → i.common.attendees.isSome = true) ∧
      ((updateEventBody i).reminders.isSome = true → i.common.reminders.isSome = true) ∧
      ((updateEventBody i).conferenceData.isSome = true → i.common.conferenceData.isSome = true) ∧
      ((updateEventBody i).extendedProperties.isSome = true → i.common.extendedProperties.isSome = true) ∧
      ((updateEventBody i).guestsCanInviteOthers.isSome = true → i.common.guestsCanInviteOthers.isSome = true) ∧
      ((updateEventBody i).guestsCanModify.isSome = true → i.common.guestsCanModify.isSome = true) ∧
      ((updateEventBody i).guestsCanSeeOtherGuests.isSome = true → i.common.guestsCanSeeOtherGuests.isSome = true) ∧
      ((updateEventBody i).anyoneCanAddSelf.isSome = true → i.common.anyoneCanAddSelf.isSome = true) ∧
      ((updateEventBody i).attachments.isSome = true → i.common.attachments.isSome = true) ∧
      ((updateEventBody i).source.isSome = true → i.common.source.isSome = true) ∧
      (updateEventBody i).id = none) ∧
    (∀ i : UpdateEventInstanceInput,
      ((updateEventInstanceBody i).summary.isSome = true → i.summary.isSome = true) ∧
      ((updateEventInstanceBody i).start.isSome = true → i.start.isSome = true) ∧
      ((updateEventInstanceBody i).«end».isSome = true → i.«end».isSome = true) ∧
      ((updateEventInstanceBody i).description.isSome = true → i.common.description.isSome = true) ∧
      ((updateEventInstanceBody i).location.isSome = true → i.common.location.isSome = true) ∧
      ((updateEventInstanceBody i).colorId.isSome = true → i.common.colorId.isSome = true) ∧
      ((updateEventInstanceBody i).recurrence.isSome = true → i.common.recurrence.isSome = true) ∧
      ((updateEventInstanceBody i).transparency.isSome = true → i.common.transparency.isSome = true) ∧
      ((updateEventInstanceBody i).visibility.isSome = true → i.common.visibility.isSome = true) ∧
      ((updateEventInstanceBody i).attendees.isSome = true → i.common.attendees.isSome = true) ∧
      ((updateEventInstanceBody i).reminders.isSome = true → i.common.reminders.isSome = true) ∧
      ((updateEventInstanceBody i).conferenceData.isSome = true → i.common.conferenceData.isSome = true) ∧
      ((updateEventInstanceBody i).extendedProperties.isSome = true → i.common.extendedProperties.isSome = true) ∧
      ((updateEventInstanceBody i).guestsCanInviteOthers.isSome = true → i.common.guestsCanInviteOthers.isSome = true) ∧
      ((updateEventInstanceBody i).guestsCanModify.isSome = true → i.common.guestsCanModify.isSome = true) ∧
      ((updateEventInstanceBody i).guestsCanSeeOtherGuests.isSome = true → i.common.guestsCanSeeOtherGuests.isSome = true) ∧
      ((updateEventInstanceBody i).anyoneCanAddSelf.isSome = true → i.common.anyoneCanAddSelf.isSome = true) ∧
      ((updateEventInstanceBody i).attachments.isSome = true → i.common.attachments.isSome = true) ∧
      ((updateEventInstanceBody i).source.isSome = true → i.common.source.isSome = true) ∧
      (updateEventInstanceBody i).id = none) ∧
    (∀ (now : String) (i : UpdateTaskInput),
      (updateTaskBody now i).title = i.title ∧
      (updateTaskBody now i).notes = i.notes ∧
      (updateTaskBody now i).due = i.due ∧
      (updateTaskBody now i).status = i.status ∧
      ((updateTaskBody now i).completed.isSome = true →
        i.status = some TaskStatus.completed)) ∧
    (∀ cid eid, updateEventBody (emptyUpdateEventInput cid eid) = EventBody.empty) ∧
    (∀ cid iid, updateEventInstanceBody (emptyUpdateInstanceInput cid iid) = EventBody.empty) ∧
    (∀ now tid taskId, updateTaskBody now (emptyUpdateTaskInput tid taskId) = TaskBody.empty) := by
  refine ⟨fun i => ?_, fun i => ?_, fun now i => ?_,
    fun cid eid => rfl, fun cid iid => rfl, fun now tid taskId => rfl⟩
  · refine ⟨?_, ?_, ?_, ?_, ?_, ?_, ?_, ?_, ?_, ?_, ?_, ?_, ?_, ?_, ?_, ?_, ?_, ?_, ?_, rfl⟩
    · exact fun h => by
        cases hs : i.summary <;>
          simp_all [updateEventBody, applyCommonEventFields, EventBody.empty]
    · exact fun h => by
        cases hs : i.start <;>
          simp_all [updateEventBody, applyCommonEventFields, EventBody.empty]
    · exact fun h => by
        cases hs : i.«end» <;>
          simp_all [updateEventBody, applyCommonEventFields, EventBody.empty]
    · exact fun h => by
        cases hs : i.common.description <;>
          simp_all [updateEventBody, applyCommonEventFields, EventBody.empty]
    · exact fun h => by
        cases hs : i.common.location <;>
          simp_all [updateEventBody, applyCommonEventFields, EventBody.empty]
    · exact fun h => by
        cases hs : i.common.colorId <;>
          simp_all [updateEventBody, applyCommonEventFields, EventBody.empty]
    · exact fun h => by
        cases hs : i.common.recurrence <;>
          simp_all [updateEventBody, applyCommonEventFields, EventBody.empty]
    · exact fun h => by
        cases hs : i.common.transparency <;>
          simp_all [updateEventBody, applyCommonEventFields, EventBody.empty]
    · exact fun h => by
        cases hs : i.common.visibility <;>
          simp_all [updateEventBody, applyCommonEventFields, EventBody.empty]
    · exact fun h => by
        cases hs : i.common.attendees <;>
          simp_all [updateEventBody, applyCommonEventFields, EventBody.empty]
    · exact fun h => by
        cases hs : i.common.reminders <;>
          simp_all [updateEventBody, applyCommonEventFields, EventBody.empty]
    · exact fun h => by
        cases hs : i.common.conferenceData <;>
          simp_all [updateEventBody, applyCommonEventFields, EventBody.empty]
    · exact fun h => by
        cases hs : i.common.extendedProperties <;>
          simp_all [updateEventBody, applyCommonEventFields, EventBody.empty]
    · exact fun h => by
        cases hs : i.common.guestsCanInviteOthers <;>
          simp_all [updateEventBody, applyCommonEventFields, EventBody.empty]
    · exact fun h => by
        cases hs : i.common.guestsCanModify <;>
          simp_all [updateEventBody, applyCommonEventFields, EventBody.empty]
    · exact fun h => by
        cases hs : i.common.guestsCanSeeOtherGuests <;>
          simp_all [updateEventBody, applyCommonEventFields, EventBody.empty]
    · exact fun h => by
        cases hs : i.common.anyoneCanAddSelf <;>
          simp_all [updateEventBody, applyCommonEventFields, EventBody.empty]
    · exact fun h => by
        cases hs : i.common.attachments <;>
          simp_all [updateEventBody, applyCommonEventFields, EventBody.empty]
    · exact fun h => by
        cases hs : i.common.source <;>
          simp_all [updateEventBody, applyCommonEventFields, EventBody.empty]
  · refine ⟨?_, ?_, ?_, ?_, ?_, ?_, ?_, ?_, ?_, ?_, ?_, ?_, ?_, ?_, ?_, ?_, ?_, ?_, ?_, rfl⟩
    · exact fun h => by
        cases hs : i.summary <;>
          simp_all [updateEventInstanceBody, applyCommonEventFields, EventBody.empty]
    · exact fun h => by
        cases hs : i.start <;>
          simp_all [updateEventInstanceBody, applyCommonEventFields, EventBody.empty]
    · exact fun h => by
        cases hs : i.«end» <;>
          simp_all [updateEventInstanceBody, applyCommonEventFields, EventBody.empty]
    · exact fun h => by
        cases hs : i.common.description <;>
          simp_all [updateEventInstanceBody, applyCommonEventFields, EventBody.empty]
    · exact fun h => by
        cases hs : i.common.location <;>
          simp_all [updateEventInstanceBody, applyCommonEventFields, EventBody.empty]
    · exact fun h => by
        cases hs : i.common.colorId <;>
          simp_all [updateEventInstanceBody, applyCommonEventFields, EventBody.empty]
    · exact fun h => by
        cases hs : i.common.recurrence <;>
          simp_all [updateEventInstanceBody, applyCommonEventFields, EventBody.empty]
    · exact fun h => by
        cases hs : i.common.transparency <;>
          simp_all [updateEventInstanceBody, applyCommonEventFields, EventBody.empty]
    · exact fun h => by
        cases hs : i.common.visibility <;>
          simp_all [updateEventInstanceBody, applyCommonEventFields, EventBody.empty]
    · exact fun h => by
        cases hs : i.common.attendees <;>
          simp_all [updateEventInstanceBody, applyCommonEventFields, EventBody.empty]
    · exact fun h => by
        cases hs : i.common.reminders <;>
          simp_all [updateEventInstanceBody, applyCommonEventFields, EventBody.empty]
    · exact fun h => by
        cases hs : i.common.conferenceData <;>
          simp_all [updateEventInstanceBody, applyCommonEventFields, EventBody.empty]
    · exact fun h => by
        cases hs : i.common.extendedProperties <;>
          simp_all [updateEventInstanceBody, applyCommonEventFields, EventBody.empty]
    · exact fun h => by
        cases hs : i.common.guestsCanInviteOthers <;>
          simp_all [updateEventInstanceBody, applyCommonEventFields, EventBody.empty]
    · exact fun h => by
        cases hs : i.common.guestsCanModify <;>
          simp_all [updateEventInstanceBody, applyCommonEventFields, EventBody.empty]
    · exact fun h => by
        cases hs : i.common.guestsCanSeeOtherGuests <;>
          simp_all [updateEventInstanceBody, applyCommonEventFields, EventBody.empty]
    · exact fun h => by
        cases hs : i.common.anyoneCanAddSelf <;>
          simp_all [updateEventInstanceBody, applyCommonEventFields, EventBody.empty]
    · exact fun h => by
        cases hs : i.common.attachments <;>
          simp_all [updateEventInstanceBody, applyCommonEventFields, EventBody.empty]
    · exact fun h => by
        cases hs : i.common.source <;>
          simp_all [updateEventInstanceBody, applyCommonEventFields, EventBody.empty]
  · refine ⟨?_, ?_, ?_, ?_, ?_⟩
    · cases h : i.title <;> simp [updateTaskBody, h]
    · cases h : i.notes <;> simp [updateTaskBody, h]
    · cases h : i.due <;> simp [updateTaskBody, h]
    · cases h : i.status <;> simp [updateTaskBody, h]
    · rcases h : i.status with _ | s
      · simp [updateTaskBody, h]
      · rcases s <;> simp [updateTaskBody, h]

/-- An update-event invocation whose only optional field is a reminders
value with no `useDefault` and no overrides (accepted by the schema). -/
def contentlessRemindersUpdate : UpdateEventInput :=
  { emptyUpdateEventInput "primary" "e1" with
    common := { CommonEventFields.empty with
      reminders := some { useDefault := none, overrides := none } } }

/-- An update-task invocation supplying only status completed. -/
def completedStatusUpdate : UpdateTaskInput :=
  { tasklistId := "@default", taskId := "t1", title := none, notes := none,
    due := none, status := some TaskStatus.completed }

/-- Counterexample to C2 as stated ("contains a mutable field if and only
if the caller explicitly supplied that field"): a supplied contentless
reminders value is dropped from the update-event body (supplied but not
contained), and update-task with status completed stamps `completed`,
a field the caller cannot supply at all (contained but not supplied). -/
theorem updateBodies_iff_counterexample :
    (contentlessRemindersUpdate.common.reminders.isSome = true ∧
      (updateEventBody contentlessRemindersUpdate).reminders = none) ∧
    (updateTaskBody "2024-01-10T17:00:00.000Z" completedStatusUpdate).completed =
      some "2024-01-10T17:00:00.000Z" :=
  ⟨⟨rfl, rfl⟩, rfl⟩

/-- An update-event invocation whose only optional field is a
description. -/
def describedUpdate : UpdateEventInput :=
  { emptyUpdateEventInput "primary" "e1" with
    common := { CommonEventFields.empty with description := some "desc" } }

/-- Witness for C2 (amended) at concrete inputs: a set description in
the body really was supplied, and the identifier-only invocations yield
the empty bodies. -/
theorem updateBodies_explicit_only_witness :
    describedUpdate.common.description.isSome = true ∧
    updateEventBody (emptyUpdateEventInput "primary" "e1") = EventBody.empty ∧
    updateTaskBody "2024-01-10T17:00:00.000Z" (emptyUpdateTaskInput "@default" "t1") =
      TaskBody.empty :=
  ⟨(updateBodies_explicit_only.1 describedUpdate).2.2.2.1 rfl,
   updateBodies_explicit_only.2.2.2.1 "primary" "e1",
   updateBodies_explicit_only.2.2.2.2.2 "2024-01-10T17:00:00.000Z" "@default" "t1"⟩

/-- The raw `list-events` arguments of the C4 scenario:
`maxResults: 5000`, nothing else. -/
def listEventsRaw5000 : ListEventsRaw :=
  { ListEventsRaw.empty with maxResults := some 5000 }

/-- C4: whenever the raw arguments fail an operation's input schema, the
invocation returns a structured `InvalidParams` error whose message joins
every individual field-violation message with "; ", and the handler is
never invoked (the outcome does not depend on the executor at all); in
particular list-events with `maxResults: 5000` fails validation this way
(5000 exceeds the 2500 maximum). -/
theorem validation_invalidParams_no_handler :
    (∀ {Raw Input Res : Type} (parse : Raw → Except (List String) Input)
      (ex1 ex2 : Input → Except Thrown Res) (emptyRaw : Raw) (args : Option Raw)
      (issues : List String),
      parse (args.getD emptyRaw) = .error issues →
        invokeTool parse ex1 emptyRaw args =
          .error { code := .invalidParams,
                   message := String.intercalate "; " issues } ∧
        invokeTool parse ex1 emptyRaw args = invokeTool parse ex2 emptyRaw args) ∧
    parseListEvents listEventsRaw5000 =
      .error ["Number must be less than or equal to 2500"] ∧
    (∀ {Res : Type} (ex : ListEventsInput → Except Thrown Res),
      invokeTool parseListEvents ex ListEventsRaw.empty (some listEventsRaw5000) =
        .error { code := .invalidParams,
                 message := "Number must be less than or equal to 2500" }) := by
  refine ⟨?_, ?_, ?_⟩
  · intro Raw Input Res parse ex1 ex2 emptyRaw args issues h
    constructor
    · simp [invokeTool, h, handleThrown]
    · simp [invokeTool, h]
  · rfl
  · intro Res ex
    rfl

/-- Witness for C4: the generic registry theorem applied to the concrete
failing list-events arguments of the scenario. -/
theorem validation_invalidParams_no_handler_witness :
    invokeTool parseListEvents (fun _ => Except.ok true) ListEventsRaw.empty
        (some listEventsRaw5000) =
      .error { code := .invalidParams,
               message := String.intercalate "; "
                 ["Number must be less than or equal to 2500"] } :=
  (validation_invalidParams_no_handler.1 parseListEvents
    (fun _ => Except.ok true) (fun _ => Except.ok false) ListEventsRaw.empty
    (some listEventsRaw5000) ["Number must be less than or equal to 2500"]
    validation_invalidParams_no_handler.2.1).1

/-- The trace of backend calls made by the search loop is a prefix of the
requested calendar identifiers (it stops at the first failure). -/
lemma searchEventsRun_trace_in_order (backend : String → Except String EventsListResponse)
    (ids : List String) : (searchEventsRun backend ids).1 <+: ids := by
  induction ids with
  | nil => simp [searchEventsRun]
  | cons id rest ih =>
    rcases hb : backend id with e | resp
    · simp only [searchEventsRun, hb]
      exact ⟨rest, rfl⟩
    · obtain ⟨t, ht⟩ := ih
      simp only [searchEventsRun, hb]
      exact ⟨t, by simp [ht]⟩

/-- When every backend call succeeds, the loop calls each calendar once
in input order and accumulates the per-calendar entries in that order. -/
lemma searchEventsRun_all_ok (backend : String → Except String EventsListResponse)
    (ids : List String) (h : ∀ id ∈ ids, (backend id).isOk = true) :
    searchEventsRun backend ids = (ids, .ok (searchEntriesOf backend ids)) := by
  induction ids with
  | nil => rfl
  | cons id rest ih =>
    have hid := h id (by simp)
    rcases hb : backend id with e | resp
    · rw [hb] at hid
      simp [Except.isOk, Except.toBool] at hid
    · have ih2 := ih (fun x hx => h x (by simp [hx]))
      simp only [searchEventsRun, hb, ih2, searchEntriesOf, List.filterMap_cons]

/-- The calendar identifiers of the accumulated entries are the input
identifiers, in order. -/
lemma searchEntriesOf_calendarIds (backend : String → Except String EventsListResponse)
    (ids : List String) (h : ∀ id ∈ ids, (backend id).isOk = true) :
    (searchEntriesOf backend ids).map SearchEntry.calendarId = ids := by
  induction ids with
  | nil => rfl
  | cons id rest ih =>
    have hid := h id (by simp)
    rcases hb : backend id with e | resp
    · rw [hb] at hid
      simp [Except.isOk, Except.toBool] at hid
    · have ih2 := ih (fun x hx => h x (by simp [hx]))
      simp [searchEntriesOf, List.filterMap_cons, hb, mkSearchEntry] at ih2 ⊢
      exact ih2

/-- C5: search-events makes exactly one backend list call per requested
calendar identifier, sequentially in input order (the call trace equals
the input list when all succeed, and is cut off at the first failure);
the result entries appear in input order; and when any backend call
throws, the whole invocation reports `InternalError` with the backend's
message and returns no partial result list. -/
theorem searchEvents_sequential_abort (backend : String → Except String EventsListResponse)
    (ids : List String) :
    ((searchEventsRun backend ids).1 <+: ids) ∧
    ((∀ id ∈ ids, (backend id).isOk = true) →
      (searchEventsRun backend ids).1 = ids ∧
      (searchEventsRun backend ids).2 = .ok (searchEntriesOf backend ids) ∧
      (searchEntriesOf backend ids).map SearchEntry.calendarId = ids) ∧
    (∀ e q, (searchEventsRun backend ids).2 = .error e →
      searchEventsExecutor backend { calendarIds := ids, query := q } = .error (.err e)) ∧
    (∀ e, (searchEventsRun backend ids).2 = .error e →
      ∀ {Raw : Type} (parse : Raw → Except (List String) SearchEventsInput)
        (emptyRaw : Raw) (args : Option Raw) (input : SearchEventsInput),
        parse (args.getD emptyRaw) = .ok input → input.calendarIds = ids →
        invokeTool parse (searchEventsExecutor backend) emptyRaw args =
          .error { code := .internalError, message := e }) := by
  refine ⟨searchEventsRun_trace_in_order backend ids, fun h => ?_, fun e q herr => ?_,
    fun e herr Raw parse emptyRaw args input hparse hcal => ?_⟩
  · rw [searchEventsRun_all_ok backend ids h]
    exact ⟨rfl, rfl, searchEntriesOf_calendarIds backend ids h⟩
  · simp [searchEventsExecutor, herr]
  · subst hcal
    simp [invokeTool, hparse, searchEventsExecutor, herr, handleThrown]

/-- A two-calendar backend in which "a" succeeds and every other
identifier throws. -/
def witnessBackend : String → Except String EventsListResponse :=
  fun id =>
    if id = "a" then
      .ok { items := some [], nextPageToken := none, nextSyncToken := none }
    else .error "boom"

/-- The search-events arguments of the C5 scenario. -/
def witnessSearchInput : SearchEventsInput :=
  { calendarIds := ["a", "b"], query := "q" }

/-- Witness for C5 at the scenario input: with calendars `["a", "b"]` and
"b" throwing, the whole invocation reports `InternalError` and no partial
result for "a". -/
theorem searchEvents_sequential_abort_witness :
    invokeTool (fun r : SearchEventsInput => Except.ok r)
      (searchEventsExecutor witnessBackend) witnessSearchInput
      (some witnessSearchInput) =
      .error { code := .internalError, message := "boom" } :=
  (searchEvents_sequential_abort witnessBackend ["a", "b"]).2.2.2 "boom" rfl
    (fun r => Except.ok r) witnessSearchInput (some witnessSearchInput)
    witnessSearchInput rfl rfl

/-- Walking an object past a key that differs from the looked-up one. -/
lemma lookupKey_go_optKey_skip (k key : String) (v : Option Json)
    (rest : List (String × Json)) (h : ¬k = key) :
    Json.lookupKey.go (optKey k v ++ rest) key = Json.lookupKey.go rest key := by
  cases v <;> simp [optKey, Json.lookupKey.go, h]

/-- An absent field contributes no key to walk past. -/
lemma lookupKey_go_optKey_none (k key : String) (rest : List (String × Json)) :
    Json.lookupKey.go (optKey k none ++ rest) key = Json.lookupKey.go rest key := by
  simp [optKey]

/-- A present field with the looked-up key is found. -/
lemma lookupKey_go_optKey_hit (k key : String) (j : Json)
    (rest : List (String × Json)) (h : k = key) :
    Json.lookupKey.go (optKey k (some j) ++ rest) key = some j := by
  simp [optKey, Json.lookupKey.go, h]

/-- A trailing field with a different key yields nothing. -/
lemma lookupKey_go_optKey_last (k key : String) (v : Option Json) (h : ¬k = key) :
    Json.lookupKey.go (optKey k v) key = none := by
  cases v <;> simp [optKey, Json.lookupKey.go, h]

/-- In the raw echo of a backend event, the `description` key is present
exactly when the backend sent it — no null-defaulting happens. -/
lemma rawEventJson_description_lookup (e : RawEvent) :
    (rawEventJson e).lookupKey "description" = e.description := by
  rcases h : e.description with _ | j <;>
    simp [rawEventJson, Json.lookupKey, h, lookupKey_go_optKey_skip,
      lookupKey_go_optKey_none, lookupKey_go_optKey_hit, lookupKey_go_optKey_last,
      Json.lookupKey.go]

/-- The create-event arguments of the C3 scenario. -/
def standupInput : CreateEventInput :=
  { calendarId := "primary", summary := "Standup",
    start := "2024-01-10T09:00:00-08:00", «end» := "2024-01-10T09:30:00-08:00",
    timeZone := none, eventId := none, sendUpdates := none,
    common := CommonEventFields.empty }

/-- A raw backend event with every field absent. -/
def RawEvent.empty : RawEvent :=
  { id := none, status := none, summary := none, description := none,
    location := none, start := none, «end» := none, recurrence := none,
    recurringEventId := none, originalStartTime := none, creator := none,
    organizer := none, attendees := none, htmlLink := none, hangoutLink := none,
    conferenceData := none, attachments := none, transparency := none,
    visibility := none, colorId := none, reminders := none, updated := none,
    created := none }

/-- The raw entity the backend could return for the C3 scenario: id and
summary set, every optional field absent. -/
def standupCreated : RawEvent :=
  { RawEvent.empty with
    id := some (Json.str "evt1"), summary := some (Json.str "Standup") }

/-- The same raw entity with a description set. -/
def describedCreated : RawEvent :=
  { standupCreated with description := some (Json.str "notes") }

/-- C3 (amended): the scenario's create-event request body carries
`start.dateTime`/`end.dateTime` equal to the supplied strings with no
`timeZone` key; the response payload, however, echoes the backend's raw
entity unchanged — a field absent on the raw entity is omitted from the
response rather than emitted as an explicit null. -/
theorem createEvent_standup_raw_echo :
    (createEventCall standupInput).calendarId = "primary" ∧
    (createEventCall standupInput).requestBody.summary = some "Standup" ∧
    (createEventCall standupInput).requestBody.start =
      some { date := none, dateTime := some "2024-01-10T09:00:00-08:00",
             timeZone := none } ∧
    (createEventCall standupInput).requestBody.«end» =
      some { date := none, dateTime := some "2024-01-10T09:30:00-08:00",
             timeZone := none } ∧
    (∀ created : RawEvent,
      (createEventResponseJson created).lookupKey "event" =
        some (rawEventJson created)) ∧
    (∀ created : RawEvent, created.description = none →
      (rawEventJson created).hasKey "description" = false) ∧
    (∀ (created : RawEvent) (j : Json), created.description = some j →
      (rawEventJson created).lookupKey "description" = some j) := by
  refine ⟨rfl, rfl, rfl, rfl, fun created => rfl, fun created h => ?_, fun created j h => ?_⟩
  · unfold Json.hasKey
    rw [rawEventJson_description_lookup, h]
    rfl
  · rw [rawEventJson_description_lookup, h]

/-- Witness for C3 (amended) at concrete raw entities: a raw entity
without a description yields a response event object with no
`description` key, and one with a description passes it through. -/
theorem createEvent_standup_raw_echo_witness :
    (rawEventJson standupCreated).hasKey "description" = false ∧
    (rawEventJson describedCreated).lookupKey "description" =
      some (Json.str "notes") :=
  ⟨createEvent_standup_raw_echo.2.2.2.2.2.1 standupCreated rfl,
   createEvent_standup_raw_echo.2.2.2.2.2.2 describedCreated (Json.str "notes") rfl⟩

/-- Counterexample to C3 as stated: for the scenario's raw backend entity
(id and summary set, all else absent) the create-event response echoes
the raw entity, whose object has no `description` key at all — while the
repository's own event normalizer `mapEvent` would have emitted
`description: null`. The response is not the normalized event. -/
theorem createEvent_normalization_counterexample :
    (createEventResponseJson standupCreated).lookupKey "event" =
      some (rawEventJson standupCreated) ∧
    (rawEventJson standupCreated).hasKey "description" = false ∧
    (mapEvent standupCreated).lookupKey "description" = some Json.null :=
  ⟨rfl, rfl, rfl⟩

/-- C10: every list-tasklists invocation issues its backend call with the
fixed page size 100 (the validated input is the empty record, so nothing
is caller-configurable), the returned list has exactly one entry per
backend item (hence at most 100 when the backend honours the page size),
and the surfaced `nextPageToken` is an explicit null when absent. -/
theorem listTasklists_fixed_page :
    (∀ u : Unit, listTasklistsParams u = { maxResults := 100 }) ∧
    (∀ resp : TaskListsResponse,
      (listTasklistsPayload resp).tasklists.length = (resp.items.getD []).length) ∧
    (∀ resp : TaskListsResponse, (resp.items.getD []).length ≤ 100 →
      (listTasklistsPayload resp).tasklists.length ≤ 100) ∧
    (∀ resp : TaskListsResponse, resp.nextPageToken = none →
      (listTasklistsPayload resp).nextPageToken = Json.null) ∧
    (∀ (resp : TaskListsResponse) (t : String), resp.nextPageToken = some t →
      (listTasklistsPayload resp).nextPageToken = Json.str t) := by
  refine ⟨fun u => rfl, fun resp => ?_, fun resp h => ?_, fun resp h => ?_,
    fun resp t h => ?_⟩
  · simp [listTasklistsPayload]
  · simpa [listTasklistsPayload] using h
  · simp [listTasklistsPayload, h]
  · simp [listTasklistsPayload, h]

/-- A one-item backend response with no page token. -/
def sampleTaskListsResponse : TaskListsResponse :=
  { items := some [{ id := some "l1", title := some "Inbox", updated := none }],
    nextPageToken := none }

/-- Witness for C10 at a concrete backend response: the fixed page size,
the one-entry payload within the bound, and the explicit-null token. -/
theorem listTasklists_fixed_page_witness :
    listTasklistsParams () = { maxResults := 100 } ∧
    (listTasklistsPayload sampleTaskListsResponse).tasklists.length ≤ 100 ∧
    (listTasklistsPayload sampleTaskListsResponse).nextPageToken = Json.null :=
  ⟨listTasklists_fixed_page.1 (),
   listTasklists_fixed_page.2.2.1 sampleTaskListsResponse (by decide),
   listTasklists_fixed_page.2.2.2.1 sampleTaskListsResponse rfl⟩

end GCalTodo
